import Mathlib

/-!
Shallow embedding of the Real Digital DRM HDMI encoder driver
(`drivers/gpu/drm/xilinx/rd_drm_hdmi.c`), together with theorems settling
the specification's claims about its capability-negotiation logic.

Machine integers (`u32`, C `int`) are modelled as `Nat`/`Int`; all values
reaching these functions come from the device tree (`u32`) or DRM mode
records with non-negative fields, so no overflow occurs in the compared
quantities.  Side-effecting kernel helpers that sit outside the repository
slice (the DRM core) are modelled either as explicit oracles over a world
state or, where noted, from the specification's description of them.
-/

/-! ## Constants from the source -/

def DEF_PIXCLK : Nat := 150000
def DEF_MAX_HORZ : Nat := 1920
def DEF_MAX_VERT : Nat := 1080
def DEF_PREF_HORZ : Nat := 1280
def DEF_PREF_VERT : Nat := 720

/-- DRM mode flag bit: interlaced scan (`1 << 4`). -/
def DRM_MODE_FLAG_INTERLACE : Nat := 16

/-- DRM mode flag bit: double-clocked mode (`1 << 12`). -/
def DRM_MODE_FLAG_DBLCLK : Nat := 4096

/-- DRM mode flag field: stereo-3D layout mask (`0x1f << 14`). -/
def DRM_MODE_FLAG_3D_MASK : Nat := 507904

/-! ## Data model -/

/-- `struct rd_drm_hdmi_config`: the capability envelope parsed from the
device tree (all fields `u32`). -/
structure rd_drm_hdmi_config where
  max_pclock : Nat
  max_horz_res : Nat
  max_vert_res : Nat
  pref_horz_res : Nat
  pref_vert_res : Nat
deriving DecidableEq, Repr

/-- `struct drm_display_mode` (the fields this driver can observe): display
timings plus the raw `flags` bitmask.  Extra timing fields are carried so
that non-interference of the validator in them is a real statement. -/
structure drm_display_mode where
  clock : Nat
  hdisplay : Nat
  hsync_start : Nat
  hsync_end : Nat
  htotal : Nat
  vdisplay : Nat
  vsync_start : Nat
  vsync_end : Nat
  vtotal : Nat
  vrefresh : Nat
  flags : Nat
  mtype : Nat
deriving DecidableEq, Repr

/-- `struct rd_drm_hdmi`: per-instance encoder state reachable from the
validator/detector/mode-source code: the parsed configuration and the
optional I2C EDID adapter handle. -/
structure rd_drm_hdmi where
  config : rd_drm_hdmi_config
  i2c_hdmi : Option Unit
deriving DecidableEq, Repr

/-- `enum drm_mode_status` values used by this driver. -/
inductive drm_mode_status where
  | MODE_OK
  | MODE_CLOCK_HIGH
  | MODE_PANEL
  | MODE_NO_INTERLACE
  | MODE_BAD
deriving DecidableEq, Repr

/-- `enum drm_connector_status`. -/
inductive drm_connector_status where
  | connected
  | disconnected
  | unknown
deriving DecidableEq, Repr

/-- Spec-level flag predicate: the mode is interlaced
(`flags & DRM_MODE_FLAG_INTERLACE` is non-zero). -/
abbrev interlaced (m : drm_display_mode) : Prop :=
  m.flags &&& DRM_MODE_FLAG_INTERLACE ≠ 0

/-- Spec-level flag predicate: the mode is double-clocked
(`flags & DRM_MODE_FLAG_DBLCLK` is non-zero). -/
abbrev double_clock (m : drm_display_mode) : Prop :=
  m.flags &&& DRM_MODE_FLAG_DBLCLK ≠ 0

/-- Spec-level flag predicate: the mode requests a stereo-3D layout
(`flags & DRM_MODE_FLAG_3D_MASK` is non-zero). -/
abbrev stereo_3d (m : drm_display_mode) : Prop :=
  m.flags &&& DRM_MODE_FLAG_3D_MASK ≠ 0

/-! ## Mode validator (`rd_drm_hdmi_mode_valid`) -/

/-- `rd_drm_hdmi_mode_valid`: validate a candidate mode against the
instance's capability envelope.  A `NULL` mode pointer is `none`. -/
def rd_drm_hdmi_mode_valid (dp : rd_drm_hdmi) (mode : Option drm_display_mode) :
    drm_mode_status :=
  match mode with
  | none => .MODE_BAD
  | some m =>
    if m.clock > dp.config.max_pclock then .MODE_CLOCK_HIGH
    else if m.hdisplay > dp.config.max_horz_res ∨
            m.vdisplay > dp.config.max_vert_res then .MODE_PANEL
    else if m.flags &&& DRM_MODE_FLAG_INTERLACE ≠ 0 then .MODE_NO_INTERLACE
    else if m.flags &&& (DRM_MODE_FLAG_DBLCLK ||| DRM_MODE_FLAG_3D_MASK) ≠ 0 then
      .MODE_BAD
    else .MODE_OK

/-- A conjunction of bit-masks of `f` is zero exactly when each mask is. -/
theorem land_lor_eq_zero_iff (f a b : Nat) :
    f &&& (a ||| b) = 0 ↔ f &&& a = 0 ∧ f &&& b = 0 := by
  constructor
  · intro h
    refine ⟨Nat.eq_of_testBit_eq fun i => ?_, Nat.eq_of_testBit_eq fun i => ?_⟩ <;>
    · have hi := congrArg (fun n => Nat.testBit n i) h
      simp only [Nat.testBit_land, Nat.testBit_lor, Nat.zero_testBit] at hi ⊢
      cases hf : f.testBit i <;> simp_all
  · rintro ⟨h1, h2⟩
    refine Nat.eq_of_testBit_eq fun i => ?_
    have i1 := congrArg (fun n => Nat.testBit n i) h1
    have i2 := congrArg (fun n => Nat.testBit n i) h2
    simp only [Nat.testBit_land, Nat.testBit_lor, Nat.zero_testBit] at i1 i2 ⊢
    cases hf : f.testBit i <;> simp_all

/-- Claim C1: for every non-null candidate mode and capability envelope,
`rd_drm_hdmi_mode_valid` evaluates the rejection rules in the fixed order
clock → resolution → interlace → double-clock/3D with first match winning:
a mode within both limits with all three flags clear is accepted, and when
several violations coexist the earlier rule's reason is returned. -/
theorem rd_drm_hdmi_mode_valid_rule_order (dp : rd_drm_hdmi) (m : drm_display_mode) :
    (m.clock ≤ dp.config.max_pclock ∧ m.hdisplay ≤ dp.config.max_horz_res ∧
      m.vdisplay ≤ dp.config.max_vert_res ∧ ¬ interlaced m ∧
      ¬ double_clock m ∧ ¬ stereo_3d m →
      rd_drm_hdmi_mode_valid dp (some m) = .MODE_OK) ∧
    (dp.config.max_pclock < m.clock →
      rd_drm_hdmi_mode_valid dp (some m) = .MODE_CLOCK_HIGH) ∧
    (m.clock ≤ dp.config.max_pclock →
      (dp.config.max_horz_res < m.hdisplay ∨ dp.config.max_vert_res < m.vdisplay) →
      rd_drm_hdmi_mode_valid dp (some m) = .MODE_PANEL) ∧
    (m.clock ≤ dp.config.max_pclock → m.hdisplay ≤ dp.config.max_horz_res →
      m.vdisplay ≤ dp.config.max_vert_res → interlaced m →
      rd_drm_hdmi_mode_valid dp (some m) = .MODE_NO_INTERLACE) ∧
    (m.clock ≤ dp.config.max_pclock → m.hdisplay ≤ dp.config.max_horz_res →
      m.vdisplay ≤ dp.config.max_vert_res → ¬ interlaced m →
      (double_clock m ∨ stereo_3d m) →
      rd_drm_hdmi_mode_valid dp (some m) = .MODE_BAD) := by
  refine ⟨?_, ?_, ?_, ?_, ?_⟩
  · rintro ⟨hc, hh, hv, hi, hd, hs⟩
    have hmask : m.flags &&& (DRM_MODE_FLAG_DBLCLK ||| DRM_MODE_FLAG_3D_MASK) = 0 :=
      (land_lor_eq_zero_iff _ _ _).mpr ⟨not_not.mp hd, not_not.mp hs⟩
    simp only [rd_drm_hdmi_mode_valid]
    rw [if_neg (by omega), if_neg (by omega), if_neg hi, if_neg (by simp [hmask])]
  · intro hc
    simp only [rd_drm_hdmi_mode_valid]
    rw [if_pos (by omega)]
  · intro hc hr
    simp only [rd_drm_hdmi_mode_valid]
    rw [if_neg (by omega), if_pos (by omega)]
  · intro hc hh hv hi
    simp only [rd_drm_hdmi_mode_valid]
    rw [if_neg (by omega), if_neg (by omega), if_pos hi]
  · intro hc hh hv hi hds
    have hmask : m.flags &&& (DRM_MODE_FLAG_DBLCLK ||| DRM_MODE_FLAG_3D_MASK) ≠ 0 := by
      intro h0
      rcases (land_lor_eq_zero_iff _ _ _).mp h0 with ⟨h1, h2⟩
      rcases hds with h | h
      · exact h h1
      · exact h h2
    simp only [rd_drm_hdmi_mode_valid]
    rw [if_neg (by omega), if_neg (by omega), if_neg hi, if_pos hmask]

/-- Witness for C1: under the default envelope, a 1920×1080 progressive mode
at 148500 kHz is accepted. -/
theorem rd_drm_hdmi_mode_valid_rule_order_witness :
    rd_drm_hdmi_mode_valid
      ⟨⟨150000, 1920, 1080, 1280, 720⟩, none⟩
      (some ⟨148500, 1920, 2008, 2052, 2200, 1080, 1084, 1089, 1125, 60, 0, 0⟩) =
      .MODE_OK :=
  (rd_drm_hdmi_mode_valid_rule_order
      ⟨⟨150000, 1920, 1080, 1280, 720⟩, none⟩
      ⟨148500, 1920, 2008, 2052, 2200, 1080, 1084, 1089, 1125, 60, 0, 0⟩).1
    (by refine ⟨by decide, by decide, by decide, by decide, by decide, by decide⟩)

/-- Claim C7: the validator is total and pure — in this embedding it is a
function on all inputs — and a null (absent) mode always yields `MODE_BAD`,
regardless of the envelope. -/
theorem rd_drm_hdmi_mode_valid_none (dp : rd_drm_hdmi) :
    rd_drm_hdmi_mode_valid dp none = .MODE_BAD := rfl

/-! ## External world oracles

The I2C transactions performed by the DRM core helpers are outside the
repository slice; their outcomes are modelled as a world state the encoder
cannot influence. -/

/-- Raw EDID blob, abstracted: the external `parse_edid` capability turns it
into a list of display modes. -/
structure edid where
  modes : List drm_display_mode
deriving DecidableEq, Repr

/-- Outcome of the I2C transactions against the attached display: the DDC
probe result (C `int`, non-zero means present) and the EDID read result. -/
structure hdmi_world where
  ddc_probe : Nat
  edid_read : Option edid
deriving DecidableEq, Repr

/-- `drm_probe_ddc`: lightweight DDC presence probe, an oracle over the
world state. -/
def drm_probe_ddc (w : hdmi_world) : Nat := w.ddc_probe

/-- `drm_get_edid`: read the display's EDID over the adapter, an oracle
over the world state (`none` models a failed or empty read). -/
def drm_get_edid (w : hdmi_world) : Option edid := w.edid_read

/-! ## Connection detector (`rd_drm_hdmi_detect`) -/

/-- `rd_drm_hdmi_detect`: probe the DDC when an I2C adapter is configured,
otherwise report `unknown`. -/
def rd_drm_hdmi_detect (dp : rd_drm_hdmi) (w : hdmi_world) : drm_connector_status :=
  match dp.i2c_hdmi with
  | some _ =>
      if drm_probe_ddc w ≠ 0 then .connected
      else .disconnected
  | none => .unknown

/-- Claim C3: detection returns `unknown` exactly when no I2C adapter is
configured; with an adapter it returns `connected` iff the DDC probe is
non-zero and `disconnected` on probe failure.  The embedding is a pure
function of the instance and the probe outcome, so no other state is read
or written. -/
theorem rd_drm_hdmi_detect_spec (dp : rd_drm_hdmi) (w : hdmi_world) :
    (dp.i2c_hdmi = none → rd_drm_hdmi_detect dp w = .unknown) ∧
    (dp.i2c_hdmi ≠ none →
      ((rd_drm_hdmi_detect dp w = .connected ↔ drm_probe_ddc w ≠ 0) ∧
       (drm_probe_ddc w = 0 → rd_drm_hdmi_detect dp w = .disconnected))) := by
  constructor
  · intro h
    simp [rd_drm_hdmi_detect, h]
  · intro h
    match hi : dp.i2c_hdmi with
    | none => exact absurd hi h
    | some a =>
      constructor
      · constructor
        · intro hc hz
          simp [rd_drm_hdmi_detect, hi, hz] at hc
        · intro hz
          simp [rd_drm_hdmi_detect, hi, hz]
      · intro hz
        simp [rd_drm_hdmi_detect, hi, hz]

/-- Witness for C3: an instance with no adapter reports `unknown`, and one
with an adapter and a successful probe reports `connected`. -/
theorem rd_drm_hdmi_detect_spec_witness :
    rd_drm_hdmi_detect ⟨⟨150000, 1920, 1080, 1280, 720⟩, none⟩ ⟨1, none⟩ =
      .unknown ∧
    rd_drm_hdmi_detect ⟨⟨150000, 1920, 1080, 1280, 720⟩, some ()⟩ ⟨1, none⟩ =
      .connected :=
  ⟨(rd_drm_hdmi_detect_spec ⟨⟨150000, 1920, 1080, 1280, 720⟩, none⟩ ⟨1, none⟩).1 rfl,
   ((rd_drm_hdmi_detect_spec ⟨⟨150000, 1920, 1080, 1280, 720⟩, some ()⟩ ⟨1, none⟩).2
      (by decide)).1.mpr (by decide)⟩

/-! ## Mode source (`rd_drm_hdmi_get_modes`) -/

/-- The connector state this driver's mode-source path can modify: the
probed mode list, the preferred-mode marking, and the EDID property. -/
structure drm_connector where
  probed_modes : List drm_display_mode
  preferred : Option (Nat × Nat)
  edid_property : Option edid
deriving DecidableEq, Repr

/-- Build a progressive entry of the standard timing table from its
display size and pixel clock. -/
def dmt_mode (h v ck : Nat) : drm_display_mode :=
  ⟨ck, h, h, h, h, v, v, v, v, 60, 0, 0⟩

/-- Modelled from the spec: the fixed standard timing table (the DRM core's
DMT table, "treated as a standard external table") that the no-EDID path
draws from; a representative set of progressive entries. -/
def drm_dmt_modes : List drm_display_mode :=
  [dmt_mode 640 480 25175, dmt_mode 800 600 40000, dmt_mode 1024 768 65000,
   dmt_mode 1280 720 74250, dmt_mode 1280 800 83500, dmt_mode 1280 1024 108000,
   dmt_mode 1600 1200 162000, dmt_mode 1680 1050 146250,
   dmt_mode 1920 1080 148500, dmt_mode 1920 1200 193250]

/-- Modelled from the spec: `drm_add_modes_noedid` synthesizes a mode list
bounded by the given maximum resolution from the fixed standard timing
table, adds it to the connector, and returns how many modes were added. -/
def drm_add_modes_noedid (c : drm_connector) (hdisplay vdisplay : Nat) :
    Int × drm_connector :=
  let newmodes := drm_dmt_modes.filter
    (fun m => m.hdisplay ≤ hdisplay && m.vdisplay ≤ vdisplay)
  (Int.ofNat newmodes.length, { c with probed_modes := c.probed_modes ++ newmodes })

/-- Modelled from the spec: `drm_set_preferred_mode` explicitly sets the
connector's preferred mode to the given resolution. -/
def drm_set_preferred_mode (c : drm_connector) (hpref vpref : Nat) : drm_connector :=
  { c with preferred := some (hpref, vpref) }

/-- Modelled from the spec: expose the manufacturer-declared EDID blob to
the connector layer for property reporting. -/
def drm_mode_connector_update_edid_property (c : drm_connector) (e : edid) :
    drm_connector :=
  { c with edid_property := some e }

/-- Modelled from the spec: `drm_add_edid_modes` delegates to the external
EDID-parsing capability, adds the display-reported modes to the connector,
and returns how many were added; no preference is injected. -/
def drm_add_edid_modes (c : drm_connector) (e : edid) : Int × drm_connector :=
  (Int.ofNat e.modes.length, { c with probed_modes := c.probed_modes ++ e.modes })

/-- `rd_drm_hdmi_get_modes`: with an I2C adapter, read the EDID (returning
0 modes on a failed read) and use only display-reported modes; without one,
synthesize modes bounded by the envelope and set its preferred mode. -/
def rd_drm_hdmi_get_modes (dp : rd_drm_hdmi) (w : hdmi_world) (c : drm_connector) :
    Int × drm_connector :=
  match dp.i2c_hdmi with
  | some _ =>
      match drm_get_edid w with
      | none => (0, c)
      | some e =>
          let c1 := drm_mode_connector_update_edid_property c e
          let r := drm_add_edid_modes c1 e
          (r.1, r.2)
  | none =>
      let r := drm_add_modes_noedid c dp.config.max_horz_res dp.config.max_vert_res
      let c2 := drm_set_preferred_mode r.2 dp.config.pref_horz_res dp.config.pref_vert_res
      (r.1, c2)

/-- Counterexample to C2: under the envelope with all limits 1 (and no I2C
adapter), the synthesized mode list is empty — `get_modes` adds no mode and
returns 0 — so the sequence is not non-empty for every envelope. -/
theorem rd_drm_hdmi_get_modes_small_envelope_empty :
    rd_drm_hdmi_get_modes ⟨⟨1, 1, 1, 1, 1⟩, none⟩ ⟨0, none⟩ ⟨[], none, none⟩ =
      (0, ⟨[], some (1, 1), none⟩) := by
  decide

/-- Claim C2 (amended): with no I2C adapter configured, `get_modes` uses no
display-reported modes (the EDID property is untouched), every synthesized
mode it adds is bounded by `max_horz_res × max_vert_res`, the preferred mode
is set to exactly `(pref_horz_res, pref_vert_res)`, and the sequence is
non-empty whenever the envelope admits at least one standard-table entry
(in particular whenever `max_horz_res ≥ 640` and `max_vert_res ≥ 480`,
which the documented defaults satisfy). -/
theorem rd_drm_hdmi_get_modes_noedid_spec (cfg : rd_drm_hdmi_config)
    (w : hdmi_world) (c : drm_connector) :
    (rd_drm_hdmi_get_modes ⟨cfg, none⟩ w c).2.preferred =
        some (cfg.pref_horz_res, cfg.pref_vert_res) ∧
    (rd_drm_hdmi_get_modes ⟨cfg, none⟩ w c).2.edid_property = c.edid_property ∧
    (∀ m ∈ (rd_drm_hdmi_get_modes ⟨cfg, none⟩ w c).2.probed_modes,
      m ∈ c.probed_modes ∨
        (m.hdisplay ≤ cfg.max_horz_res ∧ m.vdisplay ≤ cfg.max_vert_res)) ∧
    (640 ≤ cfg.max_horz_res → 480 ≤ cfg.max_vert_res →
      c.probed_modes.length <
        (rd_drm_hdmi_get_modes ⟨cfg, none⟩ w c).2.probed_modes.length ∧
      0 < (rd_drm_hdmi_get_modes ⟨cfg, none⟩ w c).1) := by
  refine ⟨rfl, rfl, ?_, ?_⟩
  · intro m hm
    simp only [rd_drm_hdmi_get_modes, drm_add_modes_noedid, drm_set_preferred_mode,
      List.mem_append] at hm
    rcases hm with hm | hm
    · exact Or.inl hm
    · right
      have := List.of_mem_filter hm
      simp only [Bool.and_eq_true, decide_eq_true_eq] at this
      exact this
  · intro hh hv
    have hmem : dmt_mode 640 480 25175 ∈ drm_dmt_modes.filter
        (fun m => m.hdisplay ≤ cfg.max_horz_res && m.vdisplay ≤ cfg.max_vert_res) := by
      refine List.mem_filter.mpr ⟨by simp [drm_dmt_modes], ?_⟩
      simp only [Bool.and_eq_true, decide_eq_true_eq, dmt_mode]
      exact ⟨hh, hv⟩
    constructor
    · simp only [rd_drm_hdmi_get_modes, drm_add_modes_noedid, drm_set_preferred_mode,
        List.length_append]
      have : 0 < (drm_dmt_modes.filter
          (fun m => m.hdisplay ≤ cfg.max_horz_res &&
            m.vdisplay ≤ cfg.max_vert_res)).length :=
        List.length_pos.mpr (List.ne_nil_of_mem hmem)
      omega
    · simp only [rd_drm_hdmi_get_modes, drm_add_modes_noedid]
      have : 0 < (drm_dmt_modes.filter
          (fun m => m.hdisplay ≤ cfg.max_horz_res &&
            m.vdisplay ≤ cfg.max_vert_res)).length :=
        List.length_pos.mpr (List.ne_nil_of_mem hmem)
      rw [Int.ofNat_eq_natCast]
      exact_mod_cast this

/-- Witness for C2 (amended): under the default envelope and an empty
connector, the no-EDID path adds at least one mode and sets the preferred
mode to 1280×720. -/
theorem rd_drm_hdmi_get_modes_noedid_spec_witness :
    (rd_drm_hdmi_get_modes ⟨⟨150000, 1920, 1080, 1280, 720⟩, none⟩ ⟨0, none⟩
        ⟨[], none, none⟩).2.preferred = some (1280, 720) ∧
    0 < (rd_drm_hdmi_get_modes ⟨⟨150000, 1920, 1080, 1280, 720⟩, none⟩ ⟨0, none⟩
        ⟨[], none, none⟩).1 :=
  ⟨(rd_drm_hdmi_get_modes_noedid_spec ⟨150000, 1920, 1080, 1280, 720⟩ ⟨0, none⟩
      ⟨[], none, none⟩).1,
   ((rd_drm_hdmi_get_modes_noedid_spec ⟨150000, 1920, 1080, 1280, 720⟩ ⟨0, none⟩
      ⟨[], none, none⟩).2.2.2 (by decide) (by decide)).2⟩

/-- Claim C4: with an I2C adapter configured, a failed or empty EDID read
makes `get_modes` return 0 ("no modes available", not an error) and leave
the connector untouched: no modes are added and no preferred mode is set. -/
theorem rd_drm_hdmi_get_modes_edid_failure (cfg : rd_drm_hdmi_config)
    (w : hdmi_world) (c : drm_connector) (h : w.edid_read = none) :
    rd_drm_hdmi_get_modes ⟨cfg, some ()⟩ w c = (0, c) := by
  simp [rd_drm_hdmi_get_modes, drm_get_edid, h]

/-- Witness for C4: a concrete failed EDID read returns `(0, connector)`
with the connector's empty mode list and absent preferred mode intact. -/
theorem rd_drm_hdmi_get_modes_edid_failure_witness :
    rd_drm_hdmi_get_modes ⟨⟨150000, 1920, 1080, 1280, 720⟩, some ()⟩ ⟨1, none⟩
      ⟨[], none, none⟩ = (0, ⟨[], none, none⟩) :=
  rd_drm_hdmi_get_modes_edid_failure ⟨150000, 1920, 1080, 1280, 720⟩ ⟨1, none⟩
    ⟨[], none, none⟩ rfl

/-! ## Configuration resolver (`rd_of_read_u32` / `rd_drm_hdmi_parse_of`) -/

/-- Informational diagnostics the resolver can emit (`DRM_INFO` lines). -/
inductive diag_msg where
  | configDefaulted (key : String) (defval : Nat)
  | i2cNotFound
deriving DecidableEq, Repr

/-- A device-tree node as the driver observes it: the u32 properties, and
whether the `realdigital,i2c-edid` phandle resolves to an I2C adapter. -/
structure device_node where
  props : String → Option Nat
  i2c_phandle : Bool
  i2c_adapter : Option Unit

/-- `rd_of_read_u32`: fetch `"realdigital," ++ param` from the node; on a
missing property use the default and emit a diagnostic naming the key and
the default. -/
def rd_of_read_u32 (node : device_node) (param : String) (defv : Nat) :
    Nat × List diag_msg :=
  let rd_param := "realdigital," ++ param
  match node.props rd_param with
  | some val => (val, [])
  | none => (defv, [diag_msg.configDefaulted rd_param defv])

/-- Result of `rd_drm_hdmi_parse_of`: the resolved adapter handle and
envelope, the diagnostics emitted, and the C return value. -/
structure parse_of_result where
  i2c_hdmi : Option Unit
  config : rd_drm_hdmi_config
  diags : List diag_msg
  ret : Int
deriving Repr

/-- `rd_drm_hdmi_parse_of`: resolve the optional I2C EDID phandle, then
read the five u32 parameters (falling back to the documented defaults);
always returns 0. -/
def rd_drm_hdmi_parse_of (node : device_node) : parse_of_result :=
  let i2cr : Option Unit × List diag_msg :=
    if node.i2c_phandle then
      match node.i2c_adapter with
      | some a => (some a, [])
      | none => (none, [diag_msg.i2cNotFound])
    else (none, [])
  let r1 := rd_of_read_u32 node "max-pclock" DEF_PIXCLK
  let r2 := rd_of_read_u32 node "max-horz-res" DEF_MAX_HORZ
  let r3 := rd_of_read_u32 node "max-vert-res" DEF_MAX_VERT
  let r4 := rd_of_read_u32 node "pref-horz-res" DEF_PREF_HORZ
  let r5 := rd_of_read_u32 node "pref-vert-res" DEF_PREF_VERT
  { i2c_hdmi := i2cr.1,
    config := ⟨r1.1, r2.1, r3.1, r4.1, r5.1⟩,
    diags := i2cr.2 ++ r1.2 ++ r2.2 ++ r3.2 ++ r4.2 ++ r5.2,
    ret := 0 }

/-- A device-tree node with no properties set and no phandle. -/
def empty_node : device_node := ⟨fun _ => none, false, none⟩

/-- The value read for a parameter is the stored one when present, else the
default. -/
theorem rd_of_read_u32_val (node : device_node) (param : String) (defv : Nat) :
    (rd_of_read_u32 node param defv).1 =
      (node.props ("realdigital," ++ param)).getD defv := by
  cases h : node.props ("realdigital," ++ param) <;>
    simp [rd_of_read_u32, h]

/-- A diagnostic naming the key and the default is emitted exactly when the
property is absent. -/
theorem rd_of_read_u32_diags (node : device_node) (param : String) (defv : Nat) :
    (rd_of_read_u32 node param defv).2 =
      if (node.props ("realdigital," ++ param)).isSome then []
      else [diag_msg.configDefaulted ("realdigital," ++ param) defv] := by
  cases h : node.props ("realdigital," ++ param) <;>
    simp [rd_of_read_u32, h]

/-- Claim C5: the resolver never fails (it always returns 0); each of the
five u32 parameters takes the stored value when present and the documented
default otherwise, in the latter case emitting a diagnostic naming the
missing key and the default; and with no keys set at all the envelope
equals the defaults exactly, with exactly five such diagnostics. -/
theorem rd_drm_hdmi_parse_of_spec (node : device_node) :
    (rd_drm_hdmi_parse_of node).ret = 0 ∧
    (rd_drm_hdmi_parse_of node).config.max_pclock =
      (node.props "realdigital,max-pclock").getD 150000 ∧
    (rd_drm_hdmi_parse_of node).config.max_horz_res =
      (node.props "realdigital,max-horz-res").getD 1920 ∧
    (rd_drm_hdmi_parse_of node).config.max_vert_res =
      (node.props "realdigital,max-vert-res").getD 1080 ∧
    (rd_drm_hdmi_parse_of node).config.pref_horz_res =
      (node.props "realdigital,pref-horz-res").getD 1280 ∧
    (rd_drm_hdmi_parse_of node).config.pref_vert_res =
      (node.props "realdigital,pref-vert-res").getD 720 ∧
    (node.props "realdigital,max-pclock" = none →
      diag_msg.configDefaulted "realdigital,max-pclock" 150000 ∈
        (rd_drm_hdmi_parse_of node).diags) ∧
    (node.props "realdigital,max-horz-res" = none →
      diag_msg.configDefaulted "realdigital,max-horz-res" 1920 ∈
        (rd_drm_hdmi_parse_of node).diags) ∧
    (node.props "realdigital,max-vert-res" = none →
      diag_msg.configDefaulted "realdigital,max-vert-res" 1080 ∈
        (rd_drm_hdmi_parse_of node).diags) ∧
    (node.props "realdigital,pref-horz-res" = none →
      diag_msg.configDefaulted "realdigital,pref-horz-res" 1280 ∈
        (rd_drm_hdmi_parse_of node).diags) ∧
    (node.props "realdigital,pref-vert-res" = none →
      diag_msg.configDefaulted "realdigital,pref-vert-res" 720 ∈
        (rd_drm_hdmi_parse_of node).diags) ∧
    (rd_drm_hdmi_parse_of empty_node).config = ⟨150000, 1920, 1080, 1280, 720⟩ ∧
    (rd_drm_hdmi_parse_of empty_node).diags =
      [diag_msg.configDefaulted "realdigital,max-pclock" 150000,
       diag_msg.configDefaulted "realdigital,max-horz-res" 1920,
       diag_msg.configDefaulted "realdigital,max-vert-res" 1080,
       diag_msg.configDefaulted "realdigital,pref-horz-res" 1280,
       diag_msg.configDefaulted "realdigital,pref-vert-res" 720] := by
  refine ⟨rfl, ?_, ?_, ?_, ?_, ?_, ?_, ?_, ?_, ?_, ?_, by decide, by decide⟩
  · exact rd_of_read_u32_val node "max-pclock" DEF_PIXCLK
  · exact rd_of_read_u32_val node "max-horz-res" DEF_MAX_HORZ
  · exact rd_of_read_u32_val node "max-vert-res" DEF_MAX_VERT
  · exact rd_of_read_u32_val node "pref-horz-res" DEF_PREF_HORZ
  · exact rd_of_read_u32_val node "pref-vert-res" DEF_PREF_VERT
  · intro h
    have hd : (rd_of_read_u32 node "max-pclock" DEF_PIXCLK).2 =
        [diag_msg.configDefaulted "realdigital,max-pclock" DEF_PIXCLK] := by
      have hk : ("realdigital," ++ "max-pclock" : String) =
        "realdigital,max-pclock" := rfl
      rw [rd_of_read_u32_diags, hk, h]
      simp
    show diag_msg.configDefaulted "realdigital,max-pclock" 150000 ∈
      _ ++ _ ++ _ ++ _ ++ _ ++ _
    simp only [List.mem_append]
    refine Or.inl (Or.inl (Or.inl (Or.inl (Or.inr ?_))))
    rw [hd]
    simp [DEF_PIXCLK]
  · intro h
    have hd : (rd_of_read_u32 node "max-horz-res" DEF_MAX_HORZ).2 =
        [diag_msg.configDefaulted "realdigital,max-horz-res" DEF_MAX_HORZ] := by
      have hk : ("realdigital," ++ "max-horz-res" : String) =
        "realdigital,max-horz-res" := rfl
      rw [rd_of_read_u32_diags, hk, h]
      simp
    show diag_msg.configDefaulted "realdigital,max-horz-res" 1920 ∈
      _ ++ _ ++ _ ++ _ ++ _ ++ _
    simp only [List.mem_append]
    refine Or.inl (Or.inl (Or.inl (Or.inr ?_)))
    rw [hd]
    simp [DEF_MAX_HORZ]
  · intro h
    have hd : (rd_of_read_u32 node "max-vert-res" DEF_MAX_VERT).2 =
        [diag_msg.configDefaulted "realdigital,max-vert-res" DEF_MAX_VERT] := by
      have hk : ("realdigital," ++ "max-vert-res" : String) =
        "realdigital,max-vert-res" := rfl
      rw [rd_of_read_u32_diags, hk, h]
      simp
    show diag_msg.configDefaulted "realdigital,max-vert-res" 1080 ∈
      _ ++ _ ++ _ ++ _ ++ _ ++ _
    simp only [List.mem_append]
    refine Or.inl (Or.inl (Or.inr ?_))
    rw [hd]
    simp [DEF_MAX_VERT]
  · intro h
    have hd : (rd_of_read_u32 node "pref-horz-res" DEF_PREF_HORZ).2 =
        [diag_msg.configDefaulted "realdigital,pref-horz-res" DEF_PREF_HORZ] := by
      have hk : ("realdigital," ++ "pref-horz-res" : String) =
        "realdigital,pref-horz-res" := rfl
      rw [rd_of_read_u32_diags, hk, h]
      simp
    show diag_msg.configDefaulted "realdigital,pref-horz-res" 1280 ∈
      _ ++ _ ++ _ ++ _ ++ _ ++ _
    simp only [List.mem_append]
    refine Or.inl (Or.inr ?_)
    rw [hd]
    simp [DEF_PREF_HORZ]
  · intro h
    have hd : (rd_of_read_u32 node "pref-vert-res" DEF_PREF_VERT).2 =
        [diag_msg.configDefaulted "realdigital,pref-vert-res" DEF_PREF_VERT] := by
      have hk : ("realdigital," ++ "pref-vert-res" : String) =
        "realdigital,pref-vert-res" := rfl
      rw [rd_of_read_u32_diags, hk, h]
      simp
    show diag_msg.configDefaulted "realdigital,pref-vert-res" 720 ∈
      _ ++ _ ++ _ ++ _ ++ _ ++ _
    simp only [List.mem_append]
    refine Or.inr ?_
    rw [hd]
    simp [DEF_PREF_VERT]

/-- Witness for C5: on the empty node the resolver yields the default
envelope, and the absent `pref-vert-res` key is reported with its
default. -/
theorem rd_drm_hdmi_parse_of_spec_witness :
    (rd_drm_hdmi_parse_of empty_node).config = ⟨150000, 1920, 1080, 1280, 720⟩ ∧
    diag_msg.configDefaulted "realdigital,pref-vert-res" 720 ∈
      (rd_drm_hdmi_parse_of empty_node).diags :=
  ⟨(rd_drm_hdmi_parse_of_spec empty_node).2.2.2.2.2.2.2.2.2.2.2.1,
   (rd_drm_hdmi_parse_of_spec empty_node).2.2.2.2.2.2.2.2.2.2.1 rfl⟩

/-- A device-tree node that stores 0 for `realdigital,max-pclock` and
nothing else. -/
def zero_pclock_node : device_node :=
  ⟨fun k => if k = "realdigital,max-pclock" then some 0 else none, false, none⟩

/-- Counterexample to C6: a configuration store may supply the value 0 for
`max-pclock`; the resolver uses it as-is, so the resulting envelope field is
0, not strictly positive. -/
theorem rd_drm_hdmi_parse_of_zero_field :
    (rd_drm_hdmi_parse_of zero_pclock_node).config.max_pclock = 0 := by
  decide

/-- Claim C6 (amended): every field of the envelope produced by the resolver
is strictly positive provided every value the store supplies is strictly
positive; in particular, absent keys take the strictly positive documented
defaults (a store may supply 0, which is used as-is). -/
theorem rd_drm_hdmi_parse_of_pos (node : device_node)
    (hpos : ∀ k v, node.props k = some v → 0 < v) :
    0 < (rd_drm_hdmi_parse_of node).config.max_pclock ∧
    0 < (rd_drm_hdmi_parse_of node).config.max_horz_res ∧
    0 < (rd_drm_hdmi_parse_of node).config.max_vert_res ∧
    0 < (rd_drm_hdmi_parse_of node).config.pref_horz_res ∧
    0 < (rd_drm_hdmi_parse_of node).config.pref_vert_res := by
  have key : ∀ (p : String) (d : Nat), 0 < d →
      0 < (node.props ("realdigital," ++ p)).getD d := by
    intro p d hd
    cases h : node.props ("realdigital," ++ p) with
    | none => simpa using hd
    | some v => simpa using hpos _ v h
  refine ⟨?_, ?_, ?_, ?_, ?_⟩
  · have hv : (rd_drm_hdmi_parse_of node).config.max_pclock =
        (node.props ("realdigital," ++ "max-pclock")).getD DEF_PIXCLK :=
      rd_of_read_u32_val node "max-pclock" DEF_PIXCLK
    rw [hv]; exact key "max-pclock" DEF_PIXCLK (by decide)
  · have hv : (rd_drm_hdmi_parse_of node).config.max_horz_res =
        (node.props ("realdigital," ++ "max-horz-res")).getD DEF_MAX_HORZ :=
      rd_of_read_u32_val node "max-horz-res" DEF_MAX_HORZ
    rw [hv]; exact key "max-horz-res" DEF_MAX_HORZ (by decide)
  · have hv : (rd_drm_hdmi_parse_of node).config.max_vert_res =
        (node.props ("realdigital," ++ "max-vert-res")).getD DEF_MAX_VERT :=
      rd_of_read_u32_val node "max-vert-res" DEF_MAX_VERT
    rw [hv]; exact key "max-vert-res" DEF_MAX_VERT (by decide)
  · have hv : (rd_drm_hdmi_parse_of node).config.pref_horz_res =
        (node.props ("realdigital," ++ "pref-horz-res")).getD DEF_PREF_HORZ :=
      rd_of_read_u32_val node "pref-horz-res" DEF_PREF_HORZ
    rw [hv]; exact key "pref-horz-res" DEF_PREF_HORZ (by decide)
  · have hv : (rd_drm_hdmi_parse_of node).config.pref_vert_res =
        (node.props ("realdigital," ++ "pref-vert-res")).getD DEF_PREF_VERT :=
      rd_of_read_u32_val node "pref-vert-res" DEF_PREF_VERT
    rw [hv]; exact key "pref-vert-res" DEF_PREF_VERT (by decide)

/-- Witness for C6 (amended): on the empty node all envelope fields are
strictly positive. -/
theorem rd_drm_hdmi_parse_of_pos_witness :
    0 < (rd_drm_hdmi_parse_of empty_node).config.max_pclock ∧
    0 < (rd_drm_hdmi_parse_of empty_node).config.max_horz_res ∧
    0 < (rd_drm_hdmi_parse_of empty_node).config.max_vert_res ∧
    0 < (rd_drm_hdmi_parse_of empty_node).config.pref_horz_res ∧
    0 < (rd_drm_hdmi_parse_of empty_node).config.pref_vert_res :=
  rd_drm_hdmi_parse_of_pos empty_node (fun k v h => by
    simp [empty_node] at h)

/-! ## Power/lifecycle controller and mode fixup -/

/-- Events the driver can emit toward the host display pipeline. -/
inductive host_event where
  | hotplug
deriving DecidableEq, Repr

/-- Modelled from the spec: `drm_helper_hpd_irq_event` delivers one
hot-plug re-evaluation notification to the host display pipeline. -/
def drm_helper_hpd_irq_event : List host_event := [host_event.hotplug]

/-- `rd_drm_hdmi_pm_suspend`: returns 0; body is empty. -/
def rd_drm_hdmi_pm_suspend (dp : rd_drm_hdmi) : Int × rd_drm_hdmi × List host_event :=
  (0, dp, [])

/-- `rd_drm_hdmi_pm_resume`: notifies the host pipeline of a hot-plug
re-evaluation and returns 0. -/
def rd_drm_hdmi_pm_resume (dp : rd_drm_hdmi) : Int × rd_drm_hdmi × List host_event :=
  (0, dp, drm_helper_hpd_irq_event)

/-- `rd_drm_hdmi_dpms`: power-mode transition, a no-op. -/
def rd_drm_hdmi_dpms (dp : rd_drm_hdmi) (dpms : Int) : rd_drm_hdmi × List host_event :=
  (dp, [])

/-- `rd_drm_hdmi_save`: save snapshot, a no-op. -/
def rd_drm_hdmi_save (dp : rd_drm_hdmi) : rd_drm_hdmi × List host_event :=
  (dp, [])

/-- `rd_drm_hdmi_restore`: restore snapshot, a no-op. -/
def rd_drm_hdmi_restore (dp : rd_drm_hdmi) : rd_drm_hdmi × List host_event :=
  (dp, [])

/-- Claim C8: resume succeeds (returns 0) and emits exactly one hot-plug
notification; suspend succeeds with zero side effects; and the dpms,
save, and restore transitions are accepted but leave the encoder state
unchanged and emit no notification. -/
theorem rd_drm_hdmi_lifecycle_spec (dp : rd_drm_hdmi) (d : Int) :
    rd_drm_hdmi_pm_resume dp = (0, dp, [host_event.hotplug]) ∧
    rd_drm_hdmi_pm_suspend dp = (0, dp, []) ∧
    rd_drm_hdmi_dpms dp d = (dp, []) ∧
    rd_drm_hdmi_save dp = (dp, []) ∧
    rd_drm_hdmi_restore dp = (dp, []) :=
  ⟨rfl, rfl, rfl, rfl, rfl⟩

/-- `rd_drm_hdmi_mode_fixup`: accepts every mode, touching neither the
adjusted mode nor the encoder state. -/
def rd_drm_hdmi_mode_fixup (dp : rd_drm_hdmi) (mode : drm_display_mode)
    (adjusted_mode : drm_display_mode) : Bool × drm_display_mode × rd_drm_hdmi :=
  (true, adjusted_mode, dp)

/-- Claim C10: mode fixup always returns `true` and leaves the adjusted
mode and the encoder state unchanged, for every instance and mode. -/
theorem rd_drm_hdmi_mode_fixup_spec (dp : rd_drm_hdmi)
    (mode adjusted_mode : drm_display_mode) :
    rd_drm_hdmi_mode_fixup dp mode adjusted_mode = (true, adjusted_mode, dp) :=
  rfl

/-! ## Non-interference of the validator -/

/-- Claim C9: the validator reads nothing beyond the five envelope limits,
the mode's clock and display size, and the three flag predicates: two
instances with equal envelopes and two modes agreeing on those observables
validate identically, whatever their other fields (sync timings, totals,
refresh, type, adapter handle) hold. -/
theorem rd_drm_hdmi_mode_valid_noninterference (dp1 dp2 : rd_drm_hdmi)
    (m1 m2 : drm_display_mode) (hcfg : dp1.config = dp2.config)
    (hc : m1.clock = m2.clock) (hh : m1.hdisplay = m2.hdisplay)
    (hv : m1.vdisplay = m2.vdisplay)
    (hi : interlaced m1 ↔ interlaced m2)
    (hd : double_clock m1 ↔ double_clock m2)
    (hs : stereo_3d m1 ↔ stereo_3d m2) :
    rd_drm_hdmi_mode_valid dp1 (some m1) = rd_drm_hdmi_mode_valid dp2 (some m2) := by
  have h40 : (m1.flags &&& (DRM_MODE_FLAG_DBLCLK ||| DRM_MODE_FLAG_3D_MASK) = 0) ↔
      (m2.flags &&& (DRM_MODE_FLAG_DBLCLK ||| DRM_MODE_FLAG_3D_MASK) = 0) := by
    rw [land_lor_eq_zero_iff, land_lor_eq_zero_iff]
    exact and_congr (not_iff_not.mp hd) (not_iff_not.mp hs)
  have h4 : (m1.flags &&& (DRM_MODE_FLAG_DBLCLK ||| DRM_MODE_FLAG_3D_MASK) ≠ 0) ↔
      (m2.flags &&& (DRM_MODE_FLAG_DBLCLK ||| DRM_MODE_FLAG_3D_MASK) ≠ 0) :=
    not_iff_not.mpr h40
  simp only [rd_drm_hdmi_mode_valid, hcfg, hc, hh, hv]
  exact if_congr Iff.rfl rfl
    (if_congr Iff.rfl rfl (if_congr hi rfl (if_congr h4 rfl rfl)))

/-- Witness for C9: two modes sharing clock, display size, and flag
predicates — but with different sync timings and distinct stereo-3D layout
bits — validate identically. -/
theorem rd_drm_hdmi_mode_valid_noninterference_witness :
    rd_drm_hdmi_mode_valid ⟨⟨150000, 1920, 1080, 1280, 720⟩, none⟩
        (some ⟨74250, 1280, 1390, 1430, 1650, 720, 725, 730, 750, 60, 16384, 64⟩) =
      rd_drm_hdmi_mode_valid ⟨⟨150000, 1920, 1080, 1280, 720⟩, some ()⟩
        (some ⟨74250, 1280, 1720, 1760, 1980, 720, 728, 732, 741, 50, 32768, 72⟩) :=
  rd_drm_hdmi_mode_valid_noninterference
    ⟨⟨150000, 1920, 1080, 1280, 720⟩, none⟩
    ⟨⟨150000, 1920, 1080, 1280, 720⟩, some ()⟩
    ⟨74250, 1280, 1390, 1430, 1650, 720, 725, 730, 750, 60, 16384, 64⟩
    ⟨74250, 1280, 1720, 1760, 1980, 720, 728, 732, 741, 50, 32768, 72⟩
    rfl rfl rfl rfl (by decide) (by decide) (by decide)
